import Mathlib

/-!
Verification of the article-fetching pipeline of the coverage-scorer
repository (src/utils/article_fetcher.py), as a shallow embedding in Lean.

Modelling conventions:
* Python strings are Lean `String`; all operations are implemented by
  structural recursion over `String.data` so every definition evaluates
  inside the kernel.
* The network, the BeautifulSoup DOM engine and the Playwright headless
  browser are collaborators outside the module; they are modelled as an
  explicit environment (`Env`) and as abstract parsed-document data
  (`Soup`).  Control flow, error strings, thresholds, and metadata
  threading are translated line by line from the source.
-/

/-- Does `hay` start with `needle`?  Models Python startswith / regex anchor. -/
def startsWithL : List Char → List Char → Bool
  | [], _ => true
  | _ :: _, [] => false
  | n :: ns, h :: hs => n == h && startsWithL ns hs

/-- Substring containment, models the Python `in` operator on strings. -/
def containsL (needle : List Char) : List Char → Bool
  | [] => startsWithL needle []
  | c :: rest => startsWithL needle (c :: rest) || containsL needle rest

/-- One fuelled step of replace-all; fuel is the length of the haystack, and
each step consumes at least one character, so the fuel never runs out. -/
def replaceFuel (needle rep : List Char) : Nat → List Char → List Char
  | 0, hay => hay
  | _ + 1, [] => []
  | fuel + 1, c :: rest =>
    if needle ≠ [] ∧ startsWithL needle (c :: rest) then
      rep ++ replaceFuel needle rep fuel ((c :: rest).drop needle.length)
    else
      c :: replaceFuel needle rep fuel rest

/-- Python str.replace with count -1: left-to-right, non-overlapping. -/
def pyReplace (s pat rep : String) : String :=
  ⟨replaceFuel pat.data rep.data s.data.length s.data⟩

/-- Python `sub in s`. -/
def pyContains (s sub : String) : Bool :=
  containsL sub.data s.data

/-- Python len on a string (number of characters). -/
def pyLen (s : String) : Nat := s.data.length

/-- Python s[:n]. -/
def pyTake (s : String) (n : Nat) : String := ⟨s.data.take n⟩

/-- Trim whitespace from both ends of a char list (Python str.strip()). -/
def trimL (l : List Char) : List Char :=
  ((l.dropWhile Char.isWhitespace).reverse.dropWhile Char.isWhitespace).reverse

/-- Python str.strip(). -/
def pyStrip (s : String) : String := ⟨trimL s.data⟩

/-- Python str.lower() (ASCII case folding suffices for the domains used). -/
def lowerStr (s : String) : String := ⟨s.data.map Char.toLower⟩

/-- Count maximal runs of non-whitespace characters; the Bool records
whether we are currently inside a word. -/
def wordRunsAux : Bool → List Char → Nat
  | _, [] => 0
  | inWord, c :: rest =>
    if c.isWhitespace then wordRunsAux false rest
    else (if inWord then 0 else 1) + wordRunsAux true rest

/-- Source function count_words: len(text.split()), the number of
whitespace-separated words. -/
def count_words (text : String) : Nat := wordRunsAux false text.data

/-- Join char lists with a separator (Python sep.join). -/
def joinWith (sep : List Char) : List (List Char) → List Char
  | [] => []
  | [x] => x
  | x :: y :: rest => x ++ sep ++ joinWith sep (y :: rest)

/-- Split before/after the first occurrence of a separator character;
the second component is none when the separator does not occur. -/
def breakAt (sep : Char) : List Char → List Char × Option (List Char)
  | [] => ([], none)
  | c :: rest =>
    if c == sep then ([], some rest)
    else
      let r := breakAt sep rest
      (c :: r.1, r.2)

/-- Split on every occurrence of a separator character (Python str.split(sep)). -/
def splitChar (sep : Char) : List Char → List (List Char)
  | [] => [[]]
  | c :: rest =>
    let r := splitChar sep rest
    if c == sep then [] :: r
    else
      match r with
      | x :: xs => (c :: x) :: xs
      | [] => [[c]]

/-- Hexadecimal value of a character, if any. -/
def hexVal (c : Char) : Option Nat :=
  if '0' ≤ c ∧ c ≤ '9' then some (c.toNat - '0'.toNat)
  else if 'a' ≤ c ∧ c ≤ 'f' then some (c.toNat - 'a'.toNat + 10)
  else if 'A' ≤ c ∧ c ≤ 'F' then some (c.toNat - 'A'.toNat + 10)
  else none

/-- Python urllib unquote_plus on the character level: plus becomes space and
percent escapes are decoded byte-wise. -/
def unquotePlusL : List Char → List Char
  | [] => []
  | '+' :: rest => ' ' :: unquotePlusL rest
  | '%' :: a :: b :: rest =>
    match hexVal a, hexVal b with
    | some x, some y => Char.ofNat (16 * x + y) :: unquotePlusL rest
    | _, _ => '%' :: unquotePlusL (a :: b :: rest)
  | c :: rest => c :: unquotePlusL rest

/-- Result of Python urlparse restricted to the components the fetcher reads. -/
structure ParsedUrl where
  scheme : String
  netloc : String
  path : String
  query : String
  fragment : String
deriving Repr, DecidableEq

/-- Characters allowed in a URL scheme. -/
def schemeChar (c : Char) : Bool :=
  c.isAlpha || c.isDigit || c == '+' || c == '-' || c == '.'

/-- Python urllib.parse.urlparse, modelled for the components used by the
fetcher.  Mirrors CPython urlsplit: optional scheme before the first colon,
network location after a double slash up to the next slash, question mark or
hash, query after the question mark, fragment after the hash.  An
unbalanced square bracket in the netloc raises ValueError in CPython
(Invalid IPv6 URL); here it returns an error value. -/
def urlparse (url : String) : Except String ParsedUrl :=
  let l := url.data
  let bf := breakAt '#' l
  let frag := bf.2.getD []
  let sc :=
    match breakAt ':' bf.1 with
    | (before, some after) =>
      if before ≠ [] ∧ (before.headD 'a').isAlpha = true ∧ before.all schemeChar = true then
        (before.map Char.toLower, after)
      else ([], bf.1)
    | (_, none) => ([], bf.1)
  let nl :=
    match sc.2 with
    | '/' :: '/' :: rest2 =>
      let h := rest2.takeWhile (fun c => !(c == '/' || c == '?' || c == '#'))
      (h, rest2.drop h.length)
    | other => ([], other)
  if (nl.1.contains '[' && !(nl.1.contains ']')) ||
     (nl.1.contains ']' && !(nl.1.contains '[')) then
    .error "Invalid IPv6 URL"
  else
    let pq := breakAt '?' nl.2
    .ok ⟨⟨sc.1⟩, ⟨nl.1⟩, ⟨pq.1⟩, ⟨pq.2.getD []⟩, ⟨frag⟩⟩

/-- Python urllib.parse.parse_qs restricted to field extraction: split the
query on ampersands, drop empty fields, fields without an equals sign and
fields with an empty value (keep_blank_values is False), and decode both
sides with unquote_plus. -/
def qsPairs (query : List Char) : List (List Char × List Char) :=
  (splitChar '&' query).filterMap fun field =>
    if field = [] then none
    else
      match breakAt '=' field with
      | (_, none) => none
      | (k, some v) =>
        if v = [] then none else some (unquotePlusL k, unquotePlusL v)

/-- First value recorded for a key by parse_qs (query_params[key][0]). -/
def qsGet (query key : String) : Option String :=
  ((qsPairs query.data).lookup key.data).map fun v => ⟨v⟩

/-- Source constant MAX_RETRIES (1 initial attempt + 1 retry). -/
def MAX_RETRIES : Nat := 2

/-- Source constant MIN_CONTENT_CHARS_FOR_SUCCESS: below this the fetcher
tries the headless browser. -/
def MIN_CONTENT_CHARS_FOR_SUCCESS : Nat := 500

/-- Source constant DEFAULT_TIMEOUT in seconds. -/
def DEFAULT_TIMEOUT : Nat := 30

/-- Source list JS_HEAVY_DOMAINS: sites known to require JavaScript rendering. -/
def JS_HEAVY_DOMAINS : List String :=
  ["coindesk.com", "msn.com", "bloomberg.com", "forbes.com", "businessinsider.com"]

/-- Source list paywall_indicators used by the paywall heuristic. -/
def paywall_indicators : List String :=
  ["paywall", "subscribe-wall", "subscription-required", "premium-content"]

/-- The metadata dict built by fetch_article and fetch_with_playwright.
contentTruncated / contentTruncatedReason model the partial-content keys
set only by the Bloomberg handler (absent means false / empty here). -/
structure Metadata where
  url : String
  domain : String
  title : String
  author : String
  fetch_errors : List String
  http_status : Option Nat
  fetch_method : String
  contentTruncated : Bool := false
  contentTruncatedReason : String := ""
deriving Repr, DecidableEq

/-- Fresh metadata as initialised at the top of fetch_article. -/
def initMeta (url : String) : Metadata :=
  { url := url, domain := "", title := "", author := "", fetch_errors := [],
    http_status := none, fetch_method := "requests" }

/-- Abstraction of a parsed BeautifulSoup document: each field records the
outcome of one DOM query the extractor performs.
* titleTag: text of the title element, if present.
* headline: text of the first match of the headline selector cascade.
* authorRaw: text of the first match of the author selector cascade.
* scriptCount / pCount: number of script and p elements before stripping.
* preview: get_text of the whole document before script stripping.
* strippedText: get_text after scripts, style, nav, etc. are removed.
* containerFor: for a content selector, the texts of the p elements of the
  matched container (none when select_one finds no match).
* allParagraphs: texts of all p elements document-wide after stripping.
* rawLower: str(soup).lower(), searched by the paywall heuristic. -/
structure Soup where
  titleTag : Option String
  headline : Option String
  authorRaw : Option String
  scriptCount : Nat
  pCount : Nat
  preview : String
  strippedText : String
  containerFor : String → Option (List String)
  allParagraphs : List String
  rawLower : String

/-- Source list content_selectors tried in order by the extractor. -/
def content_selectors : List String :=
  ["article", "[class*=\"article-body\"]", "[class*=\"article-content\"]",
   "[class*=\"post-content\"]", "[class*=\"entry-content\"]",
   "[class*=\"story-body\"]", "[class*=\"story-content\"]",
   "[class*=\"main-content\"]", "[class*=\"page-content\"]",
   ".content", "main", "[role=\"main\"]"]

/-- Join paragraph texts: strip each, drop the empty ones, separate with a
blank line ("\n\n".join(...)). -/
def joinParas (ps : List String) : String :=
  ⟨joinWith ['\n', '\n'] ((ps.map fun p => trimL p.data).filter fun l => l ≠ [])⟩

/-- Strip the author prefix: re.sub of anchored (By|Written by|Author:)
followed by whitespace, case-insensitive; alternatives tried in order. -/
def cleanAuthor (a : String) : String :=
  let l := a.data
  let low := l.map Char.toLower
  if startsWithL "by".data low then ⟨(l.drop 2).dropWhile Char.isWhitespace⟩
  else if startsWithL "written by".data low then ⟨(l.drop 10).dropWhile Char.isWhitespace⟩
  else if startsWithL "author:".data low then ⟨(l.drop 7).dropWhile Char.isWhitespace⟩
  else a

/-- Title and author updates done by extract_content_from_html before any
content check: title tag text, then headline overwrite, then author. -/
def extractMetaUpd (soup : Soup) (md : Metadata) : Metadata :=
  let md1 := match soup.titleTag with
    | some t => { md with title := pyStrip t }
    | none => md
  let md2 := match soup.headline with
    | some h => { md1 with title := pyStrip h }
    | none => md1
  match soup.authorRaw with
  | some a => { md2 with author := cleanAuthor (pyStrip a) }
  | none => md2

/-- Error message for the JavaScript-rendered-page detection. -/
def jsRenderedMsg (sc pc : Nat) : String :=
  "JavaScript-rendered page (React/Vue/etc.) - requires browser to access content ("
    ++ toString sc ++ " scripts, " ++ toString pc ++ " paragraphs)"

/-- Selector cascade: for each content selector in order, if the selector
matches, rebuild content from its paragraphs; stop at the first one whose
content reaches 100 words; otherwise the last matched content survives. -/
def cascadeSel (soup : Soup) : List String → String → String
  | [], c => c
  | sel :: rest, c =>
    match soup.containerFor sel with
    | none => cascadeSel soup rest c
    | some ps =>
      let c2 := joinParas ps
      if 100 ≤ count_words c2 then c2 else cascadeSel soup rest c2

/-- Content decision of extract_content_from_html after the JS-rendered
check: structure check, selector cascade, all-paragraph fallback, and the
200-character / 50-word floors. -/
def verdictRest (soup : Soup) : Bool × String :=
  if pyLen soup.strippedText < 100 then
    (false, "Page has no meaningful content (only " ++ toString (pyLen soup.strippedText)
      ++ " chars of text)")
  else
    let c0 := cascadeSel soup content_selectors ""
    let content := if count_words c0 < 100 then joinParas soup.allParagraphs else c0
    if pyLen content < 200 then
      (false, "Content too short (" ++ toString (pyLen content) ++ " chars, need 200+)")
    else if count_words content < 50 then
      (false, "Content too short (" ++ toString (count_words content) ++ " words, need 50+)")
    else (true, content)

/-- Success flag and content (or error text) of extract_content_from_html;
the JS-rendered-app detection runs first, on pre-stripping counts and the
pre-stripping text preview. -/
def extractVerdict (soup : Soup) : Bool × String :=
  if 20 < soup.scriptCount ∧ soup.pCount < 3 then
    if pyLen soup.preview < 500 then
      (false, jsRenderedMsg soup.scriptCount soup.pCount)
    else verdictRest soup
  else verdictRest soup

/-- Source function extract_content_from_html: updates title and author in
the metadata, then decides success and content. -/
def extract_content_from_html (soup : Soup) (md : Metadata) : Bool × String × Metadata :=
  (extractVerdict soup |>.1, extractVerdict soup |>.2, extractMetaUpd soup md)

/-- Source function is_js_heavy_domain. -/
def is_js_heavy_domain (url : String) : Bool :=
  match urlparse url with
  | .ok p =>
    let d := pyReplace (lowerStr p.netloc) "www." ""
    JS_HEAVY_DOMAINS.any fun j => pyContains d j
  | .error _ => false

/-- Source function is_bloomberg_url. -/
def is_bloomberg_url (url : String) : Bool :=
  match urlparse url with
  | .ok p => pyContains (lowerStr p.netloc) "bloomberg.com"
  | .error _ => false

/-- Source function handle_bloomberg_content: flag content under 1000
characters as partial. -/
def handle_bloomberg_content (content : String) (md : Metadata) : String × Metadata :=
  if pyLen content < 1000 then
    (content, { md with
      contentTruncated := true,
      contentTruncatedReason := "Bloomberg content too short (" ++ toString (pyLen content)
        ++ " chars, " ++ toString (count_words content) ++ " words) - may need manual review" })
  else (content, md)

/-- Source function extract_original_url_from_msn: for msn.com hosts, read
the first value of the url or originalUrl query parameter. -/
def extract_original_url_from_msn (url : String) : Option String :=
  match urlparse url with
  | .error _ => none
  | .ok p =>
    if pyContains (lowerStr p.netloc) "msn.com" then
      match qsGet p.query "url" with
      | some v => some v
      | none => qsGet p.query "originalUrl"
    else none

/-- Source function extract_domain: netloc with every occurrence of the
substring www. removed; empty string when urlparse raises. -/
def extract_domain (url : String) : String :=
  match urlparse url with
  | .ok p => pyReplace p.netloc "www." ""
  | .error _ => ""

/-- First paywall indicator contained in the lowercased raw page. -/
def detectPaywall (pageLower : String) : Option String :=
  paywall_indicators.find? fun ind => pyContains pageLower ind

/-- Observable outcome of one HTTP GET for a given URL and attempt index:
either a response (status, byte length of the body, parsed document) or one
of the exception classes the fetcher catches. -/
inductive HttpEvent where
  | resp (status : Nat) (contentLength : Nat) (soup : Soup)
  | timeoutErr
  | sslErr (msg : String)
  | connErr (msg : String)
  | otherExc (excName : String) (msg : String)

/-- The external world of one fetch: the HTTP client (per URL and attempt),
the cached Playwright availability flag, and the observable outcome of
fetch_with_playwright (success flag, content or error, its metadata). -/
structure Env where
  http : String → Nat → HttpEvent
  pwAvailable : Bool
  pw : String → Bool × String × Metadata

/-- Result of one iteration of the retry loop body:
return from fetch_article, break out of the loop with the
should_try_playwright flag and reason, or fall to the next attempt.
Every constructor carries the current value of the all_errors accumulator. -/
inductive StepRes where
  | ret (ok : Bool) (payload : String) (md : Metadata) (accum : List String)
  | brk (pw : Bool) (reason : String) (accum : List String) (md : Metadata)
  | next (accum : List String) (md : Metadata)

/-- Shared shape of the 403 / 429 / 5xx branches: record the error, retry
unless this is the last attempt, otherwise return Failed with the
accumulator copied into the metadata. -/
def hardStatus (isLast : Bool) (e : String) (errs : List String) (md : Metadata) : StepRes :=
  if isLast = false then .next (errs ++ [e]) md
  else .ret false e { md with fetch_errors := errs ++ [e] } (errs ++ [e])

/-- Post-extraction part of the loop body (fetch_article lines 512-563):
on extraction success check the 500-char floor, then the JS-heavy-domain
thinness check, then Bloomberg annotation and return; on extraction failure
record the error, break to Playwright for JS-rendered pages, retry if
attempts remain, else break to Playwright with the accumulator stored. -/
def extractStage (url : String) (isLast : Bool) (soup : Soup) (errs : List String)
    (md : Metadata) : StepRes :=
  let r := extract_content_from_html soup md
  let md2 := r.2.2
  if r.1 = true then
    let content := r.2.1
    let cc := pyLen content
    let wc := count_words content
    if cc < MIN_CONTENT_CHARS_FOR_SUCCESS then
      .brk true ("Content too short (" ++ toString cc ++ " chars < "
          ++ toString MIN_CONTENT_CHARS_FOR_SUCCESS ++ ")")
        (errs ++ ["Requests fetch returned insufficient content: " ++ toString cc ++ " chars"])
        md2
    else if is_js_heavy_domain url = true ∧ (cc < 1000 ∨ wc < 200) then
      .brk true ("JS-heavy domain with thin content (" ++ toString cc ++ " chars, "
          ++ toString wc ++ " words)")
        (errs ++ ["JS-heavy domain returned thin content"]) md2
    else
      let bb := if is_bloomberg_url url = true
        then handle_bloomberg_content content md2 else (content, md2)
      .ret true bb.1 { bb.2 with fetch_method := "requests" } errs
  else
    let emsg := r.2.1
    let e := "Content extraction failed: " ++ emsg
    if pyContains emsg "JavaScript-rendered" = true ∨ pyContains emsg "requires browser" = true then
      .brk true "Detected JavaScript-rendered page" (errs ++ [e]) md2
    else if isLast = false then .next (errs ++ [e]) md2
    else .brk true "All request attempts failed" (errs ++ [e])
      { md2 with fetch_errors := errs ++ [e] }

/-- One iteration of the retry loop of fetch_article (lines 408-602) for a
given HTTP event.  Exceptions append their message and fall to the next
attempt; responses record http_status and run the status checks, the
empty-body check, the paywall heuristic and content extraction in the
order of the source. -/
def runAttempt (url : String) (tmo : Nat) (isLast : Bool) (ev : HttpEvent)
    (errs : List String) (md : Metadata) : StepRes :=
  match ev with
  | .timeoutErr =>
    .next (errs ++ ["Timeout after " ++ toString tmo ++ "s - Site too slow to respond"]) md
  | .sslErr m =>
    .next (errs ++ ["SSL/TLS Error - Certificate problem: " ++ pyTake m 80]) md
  | .connErr m =>
    .next (errs ++ [if pyContains m "Name or service not known" = true
        ∨ pyContains m "getaddrinfo failed" = true then "DNS Error - Domain not found"
      else if pyContains m "Connection refused" = true then
        "Connection Refused - Server not accepting connections"
      else "Connection Error: " ++ pyTake m 80]) md
  | .otherExc n m =>
    .next (errs ++ ["Unexpected Error (" ++ n ++ "): " ++ pyTake m 80]) md
  | .resp status clen soup =>
    let md := { md with http_status := some status }
    if status = 403 then
      hardStatus isLast "HTTP 403 Forbidden - Site is blocking access" errs md
    else if status = 404 then
      let e := "HTTP 404 Not Found - Article does not exist"
      .ret false e { md with fetch_errors := errs ++ [e] } (errs ++ [e])
    else if status = 429 then
      hardStatus isLast "HTTP 429 Rate Limited - Too many requests" errs md
    else if 500 ≤ status then
      hardStatus isLast ("HTTP " ++ toString status ++ " Server Error") errs md
    else
      let errs := if status = 200 then errs
        else errs ++ ["HTTP " ++ toString status ++ " - Unexpected status"]
      if status ≠ 200 ∧ isLast = false then .next errs md
      else if clen = 0 then
        let e := "Empty response - No content received"
        if isLast = false then .next (errs ++ [e]) md
        else .ret false e { md with fetch_errors := errs ++ [e] } (errs ++ [e])
      else
        match detectPaywall soup.rawLower with
        | some ind =>
          if soup.pCount < 5 then
            let e := "Paywall detected (" ++ ind ++ ") - Content behind subscription"
            .ret false e { md with fetch_errors := errs ++ [e] } (errs ++ [e])
          else extractStage url isLast soup errs md
        | none => extractStage url isLast soup errs md

/-- How the retry loop ended: an early return, or falling past the loop
(break or exhaustion) with the should_try_playwright flag. -/
inductive LoopOut where
  | ret (ok : Bool) (payload : String) (md : Metadata) (accum : List String)
  | fell (pw : Bool) (reason : String) (accum : List String) (md : Metadata)

/-- The retry loop: run attempts while any remain; a natural exhaustion of
the range leaves should_try_playwright false, as in the source where the
flag is only ever set directly before a break. -/
def httpLoop (env : Env) (url : String) (tmo : Nat) :
    Nat → Nat → List String → Metadata → LoopOut
  | 0, _, errs, md => .fell false "" errs md
  | r + 1, attempt, errs, md =>
    match runAttempt url tmo (r == 0) (env.http url attempt) errs md with
    | .ret ok payload m a => .ret ok payload m a
    | .brk pwb reason a m => .fell pwb reason a m
    | .next a m => httpLoop env url tmo r (attempt + 1) a m

/-- Last accumulated error, or the fallback text (all_errors[-1] if
all_errors else "Unknown error"). -/
def lastErrOr (errs : List String) : String := errs.getLast?.getD "Unknown error"

/-- Python dict.update of the fetch metadata with the Playwright metadata:
every key fetch_with_playwright always sets is overwritten; the
Bloomberg partial-content keys are never set by Playwright and survive. -/
def mergeMeta (md pwMd : Metadata) : Metadata :=
  { url := pwMd.url, domain := pwMd.domain, title := pwMd.title, author := pwMd.author,
    fetch_errors := pwMd.fetch_errors, http_status := pwMd.http_status,
    fetch_method := pwMd.fetch_method,
    contentTruncated := md.contentTruncated,
    contentTruncatedReason := md.contentTruncatedReason }

/-- Code after the retry loop (fetch_article lines 604-633): store the
accumulator, attempt the Playwright fallback when enabled, flagged and
available, merge metadata on its success, extend the accumulator on its
failure, and otherwise fail with the last error. -/
def afterLoop (env : Env) (url : String) (usePw shouldPw : Bool) (errs : List String)
    (md : Metadata) : Bool × String × Metadata :=
  let md := { md with fetch_errors := errs }
  if usePw && shouldPw && env.pwAvailable then
    let pwr := env.pw url
    if pwr.1 then
      let merged := { mergeMeta md pwr.2.2 with
        fetch_method := "playwright",
        fetch_errors := errs ++ pwr.2.2.fetch_errors }
      let bb := if is_bloomberg_url url = true
        then handle_bloomberg_content pwr.2.1 merged else (pwr.2.1, merged)
      (true, bb.1, bb.2)
    else
      let errs2 := errs ++ pwr.2.2.fetch_errors
      (false, lastErrOr errs2, { md with fetch_errors := errs2 })
  else
    (false, lastErrOr errs, md)

/-- Dispatch on how the retry loop ended. -/
def finishLoop (env : Env) (url : String) (usePw : Bool) : LoopOut → Bool × String × Metadata
  | .ret ok payload md _ => (ok, payload, md)
  | .fell pwb _ errs md => afterLoop env url usePw pwb errs md

/-- The body of fetch_article after URL parsing and the MSN special case:
initial metadata with the domain of the input URL, then the retry loop and
the fallback stage. -/
def fetchMain (env : Env) (url : String) (tmo : Nat) (usePw : Bool) (p : ParsedUrl) :
    Bool × String × Metadata :=
  finishLoop env url usePw (httpLoop env url tmo MAX_RETRIES 0 []
    { initMeta url with domain := pyReplace p.netloc "www." "" })

/-- The body of fetch_article, with the recursive call for the MSN unwrap
passed as a parameter: parse the URL (a parse failure propagates to the
outer handler as a fatal error), on an msn.com host try the unwrapped
original URL first and keep its result when it succeeds, otherwise run the
retry pipeline on the given URL. -/
def fetchTop (env : Env) (recurse : String → Nat → Bool → Bool × String × Metadata)
    (url : String) (tmo : Nat) (usePw : Bool) : Bool × String × Metadata :=
  match urlparse url with
  | .error e =>
    (false, "Fatal Error (ValueError): " ++ e,
      { initMeta url with fetch_errors := ["Fatal Error (ValueError): " ++ e] })
  | .ok p =>
    if pyContains (lowerStr p.netloc) "msn.com" then
      match extract_original_url_from_msn url with
      | some orig =>
        if orig ≠ "" then
          let r := recurse orig tmo true
          if r.1 then r else fetchMain env url tmo usePw p
        else fetchMain env url tmo usePw p
      | none => fetchMain env url tmo usePw p
    else fetchMain env url tmo usePw p

/-- Behaviour of an exhausted recursion budget: as if the unwrapped fetch
failed, so the wrapper URL is fetched directly. -/
def noRecurse : String → Nat → Bool → Bool × String × Metadata :=
  fun _ _ _ => (false, "", initMeta "")

/-- Source function fetch_article.  fuel bounds the depth of the MSN
recursion (each unwrapped URL is strictly shorter than its wrapper, so any
fuel at least the length of the URL is enough; theorems quantify over it). -/
def fetch_article (env : Env) : Nat → String → Nat → Bool → Bool × String × Metadata
  | 0, url, tmo, usePw => fetchTop env noRecurse url tmo usePw
  | fuel + 1, url, tmo, usePw => fetchTop env (fetch_article env fuel) url tmo usePw

set_option maxRecDepth 200000

/-! ### Helper observations used by the theorems -/

/-- The all_errors accumulator carried by a loop-body outcome. -/
def stepAccum : StepRes → List String
  | .ret _ _ _ a => a
  | .brk _ _ a _ => a
  | .next a _ => a

/-- The all_errors accumulator carried by a loop outcome. -/
def loopAccum : LoopOut → List String
  | .ret _ _ _ a => a
  | .fell _ _ a _ => a

/-- The error message fetch_article records for a hard HTTP status
(403, 429 or a 5xx). -/
def statusErrMsg (s : Nat) : String :=
  if s = 403 then "HTTP 403 Forbidden - Site is blocking access"
  else if s = 429 then "HTTP 429 Rate Limited - Too many requests"
  else "HTTP " ++ toString s ++ " Server Error"

/-- On a URL that parses and is not an msn.com host, fetch_article is the
plain retry pipeline. -/
theorem fetch_article_nonmsn (env : Env) (fuel : Nat) (url : String) (tmo : Nat)
    (usePw : Bool) (p : ParsedUrl) (hp : urlparse url = .ok p)
    (hm : pyContains (lowerStr p.netloc) "msn.com" = false) :
    fetch_article env fuel url tmo usePw = fetchMain env url tmo usePw p := by
  have h : ∀ recurse, fetchTop env recurse url tmo usePw = fetchMain env url tmo usePw p := by
    intro recurse
    unfold fetchTop
    rw [hp]
    simp [hm]
  cases fuel with
  | zero => exact h _
  | succ f => exact h _

/-- On an msn.com wrapper URL whose embedded original URL fetches
successfully, fetch_article returns the recursive result unchanged. -/
theorem fetch_article_msn_success (env : Env) (fuel : Nat) (url : String) (tmo : Nat)
    (usePw : Bool) (p : ParsedUrl) (orig : String) (hp : urlparse url = .ok p)
    (hm : pyContains (lowerStr p.netloc) "msn.com" = true)
    (ho : extract_original_url_from_msn url = some orig) (hne : orig ≠ "")
    (hs : (fetch_article env fuel orig tmo true).1 = true) :
    fetch_article env (fuel + 1) url tmo usePw = fetch_article env fuel orig tmo true := by
  show fetchTop env (fetch_article env fuel) url tmo usePw = _
  unfold fetchTop
  rw [hp]
  simp only [hm, if_true]
  rw [ho]
  simp [hne, hs]

/-- Unrolling of the retry loop at the source constant MAX_RETRIES = 2. -/
theorem httpLoop_unfold2 (env : Env) (url : String) (tmo : Nat) (errs : List String)
    (md : Metadata) :
    httpLoop env url tmo 2 0 errs md =
      (match runAttempt url tmo false (env.http url 0) errs md with
       | .ret ok payload m a => .ret ok payload m a
       | .brk pwb reason a m => .fell pwb reason a m
       | .next a m =>
         match runAttempt url tmo true (env.http url 1) a m with
         | .ret ok payload m a => .ret ok payload m a
         | .brk pwb reason a m => .fell pwb reason a m
         | .next a m => .fell false "" a m) := rfl

/-- Evaluation of one attempt receiving a hard status (403, 429 or 5xx). -/
theorem runAttempt_hard (url : String) (tmo : Nat) (isLast : Bool) (status clen : Nat)
    (soup : Soup) (errs : List String) (md : Metadata)
    (h : status = 403 ∨ status = 429 ∨ 500 ≤ status) :
    runAttempt url tmo isLast (.resp status clen soup) errs md =
      hardStatus isLast (statusErrMsg status) errs { md with http_status := some status } := by
  rcases h with h | h | h
  · subst h; simp [runAttempt, statusErrMsg]
  · subst h; simp [runAttempt, statusErrMsg]
  · have h3 : status ≠ 403 := by omega
    have h4 : status ≠ 404 := by omega
    have h9 : status ≠ 429 := by omega
    simp [runAttempt, statusErrMsg, h3, h4, h9, h]

/-- Evaluation of one attempt receiving a 404: terminal return, no retry. -/
theorem runAttempt_404 (url : String) (tmo : Nat) (isLast : Bool) (clen : Nat)
    (soup : Soup) (errs : List String) (md : Metadata) :
    runAttempt url tmo isLast (.resp 404 clen soup) errs md =
      .ret false "HTTP 404 Not Found - Article does not exist"
        { md with
          http_status := some 404,
          fetch_errors := errs ++ ["HTTP 404 Not Found - Article does not exist"] }
        (errs ++ ["HTTP 404 Not Found - Article does not exist"]) := by
  simp [runAttempt]

/-- Evaluation of one attempt receiving a 200 with a nonempty body and no
paywall indicator: straight to content extraction. -/
theorem runAttempt_200 (url : String) (tmo : Nat) (isLast : Bool) (clen : Nat)
    (soup : Soup) (errs : List String) (md : Metadata)
    (hc : clen ≠ 0) (hdp : detectPaywall soup.rawLower = none) :
    runAttempt url tmo isLast (.resp 200 clen soup) errs md =
      extractStage url isLast soup errs { md with http_status := some 200 } := by
  simp [runAttempt, hc, hdp]

/-- Evaluation of one attempt receiving a 200 whose raw HTML contains a
paywall indicator and has fewer than 5 paragraph elements: terminal return
before extraction. -/
theorem runAttempt_paywall (url : String) (tmo : Nat) (isLast : Bool) (clen : Nat)
    (soup : Soup) (ind : String) (errs : List String) (md : Metadata)
    (hc : clen ≠ 0) (hdp : detectPaywall soup.rawLower = some ind)
    (hpc : soup.pCount < 5) :
    runAttempt url tmo isLast (.resp 200 clen soup) errs md =
      .ret false ("Paywall detected (" ++ ind ++ ") - Content behind subscription")
        { md with
          http_status := some 200,
          fetch_errors := errs ++ ["Paywall detected (" ++ ind ++ ") - Content behind subscription"] }
        (errs ++ ["Paywall detected (" ++ ind ++ ") - Content behind subscription"]) := by
  simp [runAttempt, hc, hdp, hpc]

/-- Extraction success whose content is under the 500-character floor:
break to the Playwright fallback with an insufficient-content error. -/
theorem extractStage_thin (url : String) (isLast : Bool) (soup : Soup) (c : String)
    (errs : List String) (md : Metadata)
    (hv : extractVerdict soup = (true, c)) (hcc : pyLen c < 500) :
    extractStage url isLast soup errs md =
      .brk true ("Content too short (" ++ toString (pyLen c) ++ " chars < "
          ++ toString MIN_CONTENT_CHARS_FOR_SUCCESS ++ ")")
        (errs ++ ["Requests fetch returned insufficient content: " ++ toString (pyLen c) ++ " chars"])
        (extractMetaUpd soup md) := by
  have hlt : pyLen c < MIN_CONTENT_CHARS_FOR_SUCCESS := hcc
  simp [extractStage, extract_content_from_html, hv, hlt]

/-- Extraction success with ample content on a non-JS-heavy, non-Bloomberg
URL: return it from the requests tier, leaving metadata fetch_errors alone. -/
theorem extractStage_ok (url : String) (isLast : Bool) (soup : Soup) (c : String)
    (errs : List String) (md : Metadata)
    (hv : extractVerdict soup = (true, c)) (h5 : 500 ≤ pyLen c)
    (hjs : is_js_heavy_domain url = false) (hbb : is_bloomberg_url url = false) :
    extractStage url isLast soup errs md =
      .ret true c { extractMetaUpd soup md with fetch_method := "requests" } errs := by
  have hge : ¬ pyLen c < MIN_CONTENT_CHARS_FOR_SUCCESS := by
    unfold MIN_CONTENT_CHARS_FOR_SUCCESS; omega
  simp [extractStage, extract_content_from_html, hv, hge, hjs, hbb]

/-- The fallback stage does nothing when Playwright is unavailable. -/
theorem afterLoop_noPw (env : Env) (url : String) (usePw shouldPw : Bool)
    (errs : List String) (md : Metadata) (h : env.pwAvailable = false) :
    afterLoop env url usePw shouldPw errs md =
      (false, lastErrOr errs, { md with fetch_errors := errs }) := by
  simp [afterLoop, h]

/-- The fallback stage does nothing when should_try_playwright is false. -/
theorem afterLoop_notFlagged (env : Env) (url : String) (usePw : Bool)
    (errs : List String) (md : Metadata) :
    afterLoop env url usePw false errs md =
      (false, lastErrOr errs, { md with fetch_errors := errs }) := by
  simp [afterLoop]

/-- C6: when the HTTP tier receives status 404 on the first attempt of a
well-formed non-MSN URL, fetch_article returns Failed at once with
http_status 404 and a single recorded error; the conclusion does not depend
on the second-attempt response nor on the Playwright parts of the
environment, so neither a retry nor the headless tier can influence it. -/
theorem C6_http404_immediate_failure (env : Env) (fuel : Nat) (url : String) (tmo : Nat)
    (usePw : Bool) (p : ParsedUrl) (clen : Nat) (soup : Soup)
    (hp : urlparse url = .ok p)
    (hm : pyContains (lowerStr p.netloc) "msn.com" = false)
    (h0 : env.http url 0 = .resp 404 clen soup) :
    fetch_article env fuel url tmo usePw =
      (false, "HTTP 404 Not Found - Article does not exist",
        { initMeta url with
          domain := pyReplace p.netloc "www." "",
          http_status := some 404,
          fetch_errors := ["HTTP 404 Not Found - Article does not exist"] }) := by
  rw [fetch_article_nonmsn env fuel url tmo usePw p hp hm]
  unfold fetchMain
  rw [show MAX_RETRIES = 2 from rfl, httpLoop_unfold2, h0, runAttempt_404]
  rfl

/-! ### Concrete instances used by witnesses and counterexamples -/

/-- A 55-word, 604-character paragraph: above every content threshold. -/
def bigText : String := ⟨joinWith [' '] (List.replicate 55 "abcdefghij".data)⟩

/-- A 60-word, 299-character paragraph: passes the extraction floors
(200 chars, 50 words) yet is under the 500-character success threshold. -/
def thinContent : String := ⟨joinWith [' '] (List.replicate 60 "abcd".data)⟩

/-- A document whose extraction yields bigText. -/
def goodSoup : Soup :=
  { titleTag := none, headline := none, authorRaw := none, scriptCount := 0, pCount := 10,
    preview := "", strippedText := bigText, containerFor := fun _ => none,
    allParagraphs := [bigText], rawLower := "html" }

/-- A document whose extraction yields thinContent. -/
def thinSoup : Soup :=
  { goodSoup with strippedText := thinContent, allParagraphs := [thinContent] }

/-- A document with no usable content. -/
def blankSoup : Soup :=
  { goodSoup with strippedText := "", allParagraphs := [] }

/-- A document carrying a paywall marker and only 2 paragraph elements. -/
def paywallSoup : Soup :=
  { goodSoup with rawLower := "div class paywall div", pCount := 2 }

/-- 300 characters of visible text. -/
def xs300 : String := ⟨List.replicate 300 'x'⟩

/-- A JavaScript-rendered single-page app document: 25 scripts, 1 paragraph,
300 characters of visible text. -/
def jsSoup : Soup :=
  { goodSoup with scriptCount := 25, pCount := 1, preview := xs300 }

/-- A Playwright oracle that always fails. -/
def pwStub : String → Bool × String × Metadata := fun _ => (false, "", initMeta "")

/-- A Playwright oracle that always succeeds. -/
def pwWins : String → Bool × String × Metadata := fun u =>
  (true, bigText, { initMeta u with fetch_method := "playwright", http_status := some 200 })

/-- The plain test URL. -/
def urlA : String := "https://example.com/a"

/-- urlparse of urlA. -/
def pA : ParsedUrl := ⟨"https", "example.com", "/a", "", ""⟩

/-- Environment: every attempt yields a 404 response; Playwright is
available and would succeed. -/
def env404 : Env := ⟨fun _ _ => .resp 404 10 blankSoup, true, pwWins⟩

/-- Environment: every attempt yields a 200 response whose extraction
passes the floors but stays under 500 characters; Playwright unavailable. -/
def envThin : Env := ⟨fun _ _ => .resp 200 10 thinSoup, false, pwStub⟩

/-- Environment: every attempt yields 403; Playwright is available and
would succeed. -/
def env403 : Env := ⟨fun _ _ => .resp 403 10 blankSoup, true, pwWins⟩

/-- Environment: first attempt 403, second attempt a rich 200 page;
Playwright unavailable. -/
def envRecover : Env :=
  ⟨fun _ n => if n == 0 then .resp 403 10 blankSoup else .resp 200 900 goodSoup, false, pwStub⟩

/-- Environment: every attempt yields a paywalled 200 response; Playwright
is available and would succeed. -/
def envPaywall : Env := ⟨fun _ _ => .resp 200 10 paywallSoup, true, pwWins⟩

/-- The unwrapped original article URL. -/
def origUrl : String := "https://orig.example.com/story"

/-- An msn.com wrapper URL embedding origUrl in its url query parameter. -/
def wrapperUrl : String := "https://www.msn.com/en-us/news?url=https://orig.example.com/story"

/-- urlparse of wrapperUrl. -/
def pWrapper : ParsedUrl :=
  ⟨"https", "www.msn.com", "/en-us/news", "url=https://orig.example.com/story", ""⟩

/-- Environment: origUrl serves a rich page, every other URL serves 404;
Playwright unavailable. -/
def envMsn : Env :=
  ⟨fun u _ => if u == origUrl then .resp 200 900 goodSoup else .resp 404 10 blankSoup,
   false, pwStub⟩

/-- Witness for C6 at a concrete environment: both parse hypotheses hold
and the 404 produces the immediate failure. -/
theorem C6_witness :
    urlparse urlA = Except.ok pA ∧
    pyContains (lowerStr pA.netloc) "msn.com" = false ∧
    env404.http urlA 0 = HttpEvent.resp 404 10 blankSoup ∧
    fetch_article env404 5 urlA 30 true =
      (false, "HTTP 404 Not Found - Article does not exist",
        { initMeta urlA with
          domain := pyReplace pA.netloc "www." "",
          http_status := some 404,
          fetch_errors := ["HTTP 404 Not Found - Article does not exist"] }) :=
  ⟨rfl, by decide, rfl,
    C6_http404_immediate_failure env404 5 urlA 30 true pA 10 blankSoup rfl (by decide) rfl⟩

/-- C7: an HTTP response whose raw HTML contains a paywall indicator and
has fewer than 5 paragraph elements makes the first attempt fail
terminally: one recorded error, no retry, and a conclusion independent of
the second attempt and of the Playwright oracle, with title and author
still empty because content extraction never ran. -/
theorem C7_paywall_short_circuit (env : Env) (fuel : Nat) (url : String) (tmo : Nat)
    (usePw : Bool) (p : ParsedUrl) (clen : Nat) (soup : Soup) (ind : String)
    (hp : urlparse url = .ok p)
    (hm : pyContains (lowerStr p.netloc) "msn.com" = false)
    (h0 : env.http url 0 = .resp 200 clen soup)
    (hc : clen ≠ 0)
    (hdp : detectPaywall soup.rawLower = some ind)
    (hpc : soup.pCount < 5) :
    fetch_article env fuel url tmo usePw =
      (false, "Paywall detected (" ++ ind ++ ") - Content behind subscription",
        { initMeta url with
          domain := pyReplace p.netloc "www." "",
          http_status := some 200,
          fetch_errors := ["Paywall detected (" ++ ind ++ ") - Content behind subscription"] }) := by
  rw [fetch_article_nonmsn env fuel url tmo usePw p hp hm]
  unfold fetchMain
  rw [show MAX_RETRIES = 2 from rfl, httpLoop_unfold2, h0,
    runAttempt_paywall url tmo false clen soup ind [] _ hc hdp hpc]
  rfl

/-- Witness for C7 at a concrete environment. -/
theorem C7_witness :
    detectPaywall paywallSoup.rawLower = some "paywall" ∧
    paywallSoup.pCount < 5 ∧
    fetch_article envPaywall 5 urlA 30 true =
      (false, "Paywall detected (" ++ "paywall" ++ ") - Content behind subscription",
        { initMeta urlA with
          domain := pyReplace pA.netloc "www." "",
          http_status := some 200,
          fetch_errors := ["Paywall detected (" ++ "paywall" ++ ") - Content behind subscription"] }) :=
  ⟨by decide, by decide,
    C7_paywall_short_circuit envPaywall 5 urlA 30 true pA 10 paywallSoup "paywall"
      rfl (by decide) rfl (by decide) (by decide) (by decide)⟩

/-- C8: a document with more than 20 script elements, fewer than 3
paragraph elements and under 500 characters of visible text fails
extraction with the JavaScript-rendered-page reason.  The conclusion
depends only on the pre-stripping fields of the document (counts, preview,
title and author sources), which formalises that the detection runs before
script stripping. -/
theorem C8_js_detection (soup : Soup) (md : Metadata)
    (hs : 20 < soup.scriptCount) (hpc : soup.pCount < 3) (hl : pyLen soup.preview < 500) :
    extract_content_from_html soup md =
      (false, jsRenderedMsg soup.scriptCount soup.pCount, extractMetaUpd soup md) := by
  simp [extract_content_from_html, extractVerdict, hs, hpc, hl]

/-- Witness for C8: 25 scripts, 1 paragraph, 300 characters of text. -/
theorem C8_witness :
    20 < jsSoup.scriptCount ∧ jsSoup.pCount < 3 ∧ pyLen jsSoup.preview < 500 ∧
    extract_content_from_html jsSoup (initMeta urlA) =
      (false, jsRenderedMsg jsSoup.scriptCount jsSoup.pCount, extractMetaUpd jsSoup (initMeta urlA)) :=
  ⟨by decide, by decide, by decide,
    C8_js_detection jsSoup (initMeta urlA) (by decide) (by decide) (by decide)⟩

/-- Counterexample to C1 as stated: a non-JS-heavy URL whose HTTP fetch
succeeds and whose extracted body passes the 200-character and 50-word
floors but is under 500 characters does NOT produce Success — the fetcher
discards the body and escalates, failing here because headless is
unavailable. -/
theorem C1_counterexample :
    extractVerdict thinSoup = (true, thinContent) ∧
    200 ≤ pyLen thinContent ∧ pyLen thinContent < 500 ∧ 50 ≤ count_words thinContent ∧
    is_js_heavy_domain urlA = false ∧
    (fetch_article envThin 1 urlA 30 true).1 = false :=
  ⟨by decide, by decide, by decide, by decide, by decide, by decide⟩

/-- C1 amended: when the HTTP tier succeeds and extraction passes its
floors but the body is under 500 characters, fetch_article does not return
that body; it records an insufficient-content error and escalates to the
headless tier, so with Playwright unavailable the fetch fails. -/
theorem C1_thin_content_escalates (env : Env) (fuel : Nat) (url : String) (tmo : Nat)
    (usePw : Bool) (p : ParsedUrl) (clen : Nat) (soup : Soup) (c : String)
    (hp : urlparse url = .ok p)
    (hm : pyContains (lowerStr p.netloc) "msn.com" = false)
    (h0 : env.http url 0 = .resp 200 clen soup)
    (hc : clen ≠ 0)
    (hdp : detectPaywall soup.rawLower = none)
    (hv : extractVerdict soup = (true, c))
    (hcc : pyLen c < 500)
    (hpw : env.pwAvailable = false) :
    fetch_article env fuel url tmo usePw =
      (false, "Requests fetch returned insufficient content: " ++ toString (pyLen c) ++ " chars",
        { extractMetaUpd soup
            { initMeta url with
              domain := pyReplace p.netloc "www." "",
              http_status := some 200 } with
          fetch_errors :=
            ["Requests fetch returned insufficient content: " ++ toString (pyLen c) ++ " chars"] }) := by
  rw [fetch_article_nonmsn env fuel url tmo usePw p hp hm]
  unfold fetchMain
  rw [show MAX_RETRIES = 2 from rfl, httpLoop_unfold2, h0,
    runAttempt_200 url tmo false clen soup [] _ hc hdp,
    extractStage_thin url false soup c [] _ hv hcc]
  dsimp only [finishLoop]
  simp [afterLoop, hpw, lastErrOr]

/-- Witness for the amended C1 at a concrete environment. -/
theorem C1_witness :
    urlparse urlA = Except.ok pA ∧
    envThin.http urlA 0 = HttpEvent.resp 200 10 thinSoup ∧
    detectPaywall thinSoup.rawLower = none ∧
    extractVerdict thinSoup = (true, thinContent) ∧
    pyLen thinContent < 500 ∧
    envThin.pwAvailable = false ∧
    fetch_article envThin 1 urlA 30 true =
      (false, "Requests fetch returned insufficient content: "
          ++ toString (pyLen thinContent) ++ " chars",
        { extractMetaUpd thinSoup
            { initMeta urlA with
              domain := pyReplace pA.netloc "www." "",
              http_status := some 200 } with
          fetch_errors :=
            ["Requests fetch returned insufficient content: "
              ++ toString (pyLen thinContent) ++ " chars"] }) :=
  ⟨rfl, rfl, by decide, by decide, by decide, rfl,
    C1_thin_content_escalates envThin 1 urlA 30 true pA 10 thinSoup thinContent
      rfl (by decide) rfl (by decide) (by decide) (by decide) (by decide) rfl⟩

/-- A hard status on a non-final attempt: record the error and retry. -/
theorem runAttempt_hard_retry (url : String) (tmo : Nat) (status clen : Nat)
    (soup : Soup) (errs : List String) (md : Metadata)
    (h : status = 403 ∨ status = 429 ∨ 500 ≤ status) :
    runAttempt url tmo false (.resp status clen soup) errs md =
      .next (errs ++ [statusErrMsg status]) { md with http_status := some status } := by
  rw [runAttempt_hard url tmo false status clen soup errs md h]
  rfl

/-- A hard status on the final attempt: terminal Failed return. -/
theorem runAttempt_hard_last (url : String) (tmo : Nat) (status clen : Nat)
    (soup : Soup) (errs : List String) (md : Metadata)
    (h : status = 403 ∨ status = 429 ∨ 500 ≤ status) :
    runAttempt url tmo true (.resp status clen soup) errs md =
      .ret false (statusErrMsg status)
        { md with
          http_status := some status,
          fetch_errors := errs ++ [statusErrMsg status] }
        (errs ++ [statusErrMsg status]) := by
  rw [runAttempt_hard url tmo true status clen soup errs md h]
  rfl

/-- Counterexample to C2 as stated: with 403 on both attempts and a
Playwright oracle that is available and would succeed, the fetch still
returns Failed from the HTTP tier (fetch_method stays requests), so
non-404, non-paywall HTTP failures do NOT escalate to the headless tier. -/
theorem C2_counterexample :
    env403.pwAvailable = true ∧
    (env403.pw urlA).1 = true ∧
    (fetch_article env403 1 urlA 30 true).1 = false ∧
    (fetch_article env403 1 urlA 30 true).2.2.fetch_method = "requests" ∧
    (fetch_article env403 1 urlA 30 true).2.2.fetch_errors =
      ["HTTP 403 Forbidden - Site is blocking access",
       "HTTP 403 Forbidden - Site is blocking access"] :=
  ⟨rfl, rfl, by decide, by decide, by decide⟩

/-- C2 amended: hard HTTP status failures (403, 429, 5xx) on every attempt
make fetch_article return Failed directly from the HTTP tier once retries
are exhausted, with both errors recorded, the last status stored, and the
Playwright oracle never consulted (the conclusion is independent of the
Playwright parts of the environment even when headless is available). -/
theorem C2_status_failures_no_fallback (env : Env) (fuel : Nat) (url : String) (tmo : Nat)
    (usePw : Bool) (p : ParsedUrl) (s0 s1 cl0 cl1 : Nat) (soup0 soup1 : Soup)
    (hp : urlparse url = .ok p)
    (hm : pyContains (lowerStr p.netloc) "msn.com" = false)
    (h0 : env.http url 0 = .resp s0 cl0 soup0)
    (h1 : env.http url 1 = .resp s1 cl1 soup1)
    (hs0 : s0 = 403 ∨ s0 = 429 ∨ 500 ≤ s0)
    (hs1 : s1 = 403 ∨ s1 = 429 ∨ 500 ≤ s1) :
    fetch_article env fuel url tmo usePw =
      (false, statusErrMsg s1,
        { initMeta url with
          domain := pyReplace p.netloc "www." "",
          http_status := some s1,
          fetch_errors := [statusErrMsg s0, statusErrMsg s1] }) := by
  rw [fetch_article_nonmsn env fuel url tmo usePw p hp hm]
  unfold fetchMain
  rw [show MAX_RETRIES = 2 from rfl, httpLoop_unfold2, h0,
    runAttempt_hard_retry url tmo s0 cl0 soup0 [] _ hs0]
  dsimp only
  rw [h1, runAttempt_hard_last url tmo s1 cl1 soup1 _ _ hs1]
  rfl

/-- Witness for the amended C2 at a concrete environment. -/
theorem C2_witness :
    urlparse urlA = Except.ok pA ∧
    env403.http urlA 0 = HttpEvent.resp 403 10 blankSoup ∧
    env403.http urlA 1 = HttpEvent.resp 403 10 blankSoup ∧
    fetch_article env403 1 urlA 30 true =
      (false, statusErrMsg 403,
        { initMeta urlA with
          domain := pyReplace pA.netloc "www." "",
          http_status := some 403,
          fetch_errors := [statusErrMsg 403, statusErrMsg 403] }) :=
  ⟨rfl, rfl, rfl,
    C2_status_failures_no_fallback env403 1 urlA 30 true pA 403 403 10 10 blankSoup blankSoup
      rfl (by decide) rfl rfl (Or.inl rfl) (Or.inl rfl)⟩

/-- Title and author updates leave the error list of the metadata alone. -/
theorem extractMetaUpd_fetch_errors (soup : Soup) (md : Metadata) :
    (extractMetaUpd soup md).fetch_errors = md.fetch_errors := by
  unfold extractMetaUpd
  cases soup.titleTag <;> cases soup.headline <;> cases soup.authorRaw <;> rfl

/-- Counterexample to C3 as stated: the first attempt fails with 403 and is
recorded, the second attempt succeeds, yet the returned metadata exposes an
EMPTY fetch_errors list — the accumulator is not visible to the caller on a
requests-tier success. -/
theorem C3_counterexample :
    envRecover.http urlA 0 = HttpEvent.resp 403 10 blankSoup ∧
    (fetch_article envRecover 1 urlA 30 true).1 = true ∧
    (fetch_article envRecover 1 urlA 30 true).2.2.http_status = some 200 ∧
    (fetch_article envRecover 1 urlA 30 true).2.2.fetch_errors = [] :=
  ⟨rfl, by decide, by decide, by decide⟩

/-- C3 amended: when a retryable failure (403) is followed by a successful
attempt with rich content, fetch_article returns Success but the error
recorded for the failed attempt is NOT exposed: the returned
metadata.fetch_errors is the untouched initial empty list (only failure
exits and the headless path copy the accumulator into the metadata). -/
theorem C3_success_hides_accumulator (env : Env) (fuel : Nat) (url : String) (tmo : Nat)
    (usePw : Bool) (p : ParsedUrl) (cl0 cl1 : Nat) (soup0 soup1 : Soup) (c : String)
    (hp : urlparse url = .ok p)
    (hm : pyContains (lowerStr p.netloc) "msn.com" = false)
    (h0 : env.http url 0 = .resp 403 cl0 soup0)
    (h1 : env.http url 1 = .resp 200 cl1 soup1)
    (hc1 : cl1 ≠ 0)
    (hdp : detectPaywall soup1.rawLower = none)
    (hv : extractVerdict soup1 = (true, c))
    (h5 : 500 ≤ pyLen c)
    (hjs : is_js_heavy_domain url = false)
    (hbb : is_bloomberg_url url = false) :
    fetch_article env fuel url tmo usePw =
      (true, c,
        { extractMetaUpd soup1
            { initMeta url with
              domain := pyReplace p.netloc "www." "",
              http_status := some 200 } with
          fetch_method := "requests" }) ∧
    (fetch_article env fuel url tmo usePw).2.2.fetch_errors = [] := by
  have heq : fetch_article env fuel url tmo usePw =
      (true, c,
        { extractMetaUpd soup1
            { initMeta url with
              domain := pyReplace p.netloc "www." "",
              http_status := some 200 } with
          fetch_method := "requests" }) := by
    rw [fetch_article_nonmsn env fuel url tmo usePw p hp hm]
    unfold fetchMain
    rw [show MAX_RETRIES = 2 from rfl, httpLoop_unfold2, h0,
      runAttempt_hard_retry url tmo 403 cl0 soup0 [] _ (Or.inl rfl)]
    dsimp only
    rw [h1, runAttempt_200 url tmo true cl1 soup1 _ _ hc1 hdp,
      extractStage_ok url true soup1 c _ _ hv h5 hjs hbb]
    rfl
  refine ⟨heq, ?_⟩
  rw [heq]
  simp [extractMetaUpd_fetch_errors]
  rfl

/-- Witness for the amended C3 at a concrete environment. -/
theorem C3_witness :
    envRecover.http urlA 0 = HttpEvent.resp 403 10 blankSoup ∧
    envRecover.http urlA 1 = HttpEvent.resp 200 900 goodSoup ∧
    extractVerdict goodSoup = (true, bigText) ∧
    500 ≤ pyLen bigText ∧
    (fetch_article envRecover 1 urlA 30 true =
      (true, bigText,
        { extractMetaUpd goodSoup
            { initMeta urlA with
              domain := pyReplace pA.netloc "www." "",
              http_status := some 200 } with
          fetch_method := "requests" }) ∧
    (fetch_article envRecover 1 urlA 30 true).2.2.fetch_errors = []) :=
  ⟨rfl, rfl, by decide, by decide,
    C3_success_hides_accumulator envRecover 1 urlA 30 true pA 10 900 blankSoup goodSoup bigText
      rfl (by decide) rfl rfl (by decide) (by decide) (by decide) (by decide)
      (by decide) (by decide)⟩

/-- Counterexample to C4 as stated: an msn.com wrapper URL succeeds by
unwrapping and fetching the embedded original URL, and the returned
metadata.domain is derived from the URL actually fetched
(orig.example.com), not from the wrapper input URL (whose derived domain
would be msn.com). -/
theorem C4_counterexample :
    extract_original_url_from_msn wrapperUrl = some origUrl ∧
    (fetch_article envMsn 2 wrapperUrl 30 true).1 = true ∧
    (fetch_article envMsn 2 wrapperUrl 30 true).2.2.domain = "orig.example.com" ∧
    pyReplace pWrapper.netloc "www." "" = "msn.com" ∧
    ("orig.example.com" : String) ≠ "msn.com" :=
  ⟨by decide, by decide, by decide, by decide, by decide⟩

/-- C4 amended: when an msn.com wrapper URL succeeds by unwrapping and
fetching the embedded original URL, the returned metadata is the recursive
fetch result wholesale, so its domain field is the one derived from the
unwrapped URL that was actually fetched, not from the wrapper input URL. -/
theorem C4_domain_from_unwrapped (env : Env) (fuel : Nat) (url : String) (tmo : Nat)
    (usePw : Bool) (p : ParsedUrl) (orig : String)
    (hp : urlparse url = .ok p)
    (hm : pyContains (lowerStr p.netloc) "msn.com" = true)
    (ho : extract_original_url_from_msn url = some orig)
    (hne : orig ≠ "")
    (hs : (fetch_article env fuel orig tmo true).1 = true) :
    (fetch_article env (fuel + 1) url tmo usePw).2.2 =
      (fetch_article env fuel orig tmo true).2.2 := by
  rw [fetch_article_msn_success env fuel url tmo usePw p orig hp hm ho hne hs]

/-- Witness for the amended C4 at a concrete environment. -/
theorem C4_witness :
    (fetch_article envMsn 1 origUrl 30 true).1 = true ∧
    (fetch_article envMsn 2 wrapperUrl 30 true).2.2 =
      (fetch_article envMsn 1 origUrl 30 true).2.2 ∧
    (fetch_article envMsn 1 origUrl 30 true).2.2.domain = "orig.example.com" :=
  ⟨by decide,
    C4_domain_from_unwrapped envMsn 1 wrapperUrl 30 true pWrapper origUrl
      rfl (by decide) (by decide) (by decide) (by decide),
    by decide⟩

/-- C9: for an msn.com wrapper URL whose query parameter encodes an
original URL that fetches successfully in the same environment, fetching
the wrapper returns the same success flag and the same text as fetching
the original URL directly. -/
theorem C9_msn_roundtrip (env : Env) (fuel : Nat) (url : String) (tmo : Nat)
    (usePw : Bool) (p : ParsedUrl) (orig : String)
    (hp : urlparse url = .ok p)
    (hm : pyContains (lowerStr p.netloc) "msn.com" = true)
    (ho : extract_original_url_from_msn url = some orig)
    (hne : orig ≠ "")
    (hs : (fetch_article env fuel orig tmo true).1 = true) :
    (fetch_article env (fuel + 1) url tmo usePw).1 =
      (fetch_article env fuel orig tmo true).1 ∧
    (fetch_article env (fuel + 1) url tmo usePw).2.1 =
      (fetch_article env fuel orig tmo true).2.1 := by
  have h := fetch_article_msn_success env fuel url tmo usePw p orig hp hm ho hne hs
  exact ⟨by rw [h], by rw [h]⟩

/-- Witness for C9 at a concrete environment. -/
theorem C9_witness :
    extract_original_url_from_msn wrapperUrl = some origUrl ∧
    (fetch_article envMsn 1 origUrl 30 true).1 = true ∧
    ((fetch_article envMsn 2 wrapperUrl 30 true).1 =
      (fetch_article envMsn 1 origUrl 30 true).1 ∧
    (fetch_article envMsn 2 wrapperUrl 30 true).2.1 =
      (fetch_article envMsn 1 origUrl 30 true).2.1) :=
  ⟨by decide, by decide,
    C9_msn_roundtrip envMsn 1 wrapperUrl 30 true pWrapper origUrl
      rfl (by decide) (by decide) (by decide) (by decide)⟩

/-- C10: extract_domain removes every occurrence of the substring www.
from the parsed netloc — interior occurrences too, deleting characters
mid-host — not only a leading prefix; a URL on which parsing raises
(unbalanced bracket, CPython Invalid IPv6 URL) yields the empty string;
and fetch_article records the same value as metadata.domain. -/
theorem C10_extract_domain_replace_all :
    extract_domain "https://sub.www.example.com/x" = "sub.example.com" ∧
    extract_domain "https://awww.example.com/" = "aexample.com" ∧
    extract_domain "https://www.example.com/x" = "example.com" ∧
    extract_domain "http://[::1" = "" ∧
    (fetch_article env404 1 "https://sub.www.example.com/x" 30 true).2.2.domain =
      "sub.example.com" :=
  ⟨by decide, by decide, by decide, by decide, by decide⟩

/-- Prepending to the base preserves being an extension of the base. -/
theorem accPre (base u r : List String) (h : ∃ t, r = (base ++ u) ++ t) :
    ∃ t, r = base ++ t := by
  obtain ⟨t, ht⟩ := h
  exact ⟨u ++ t, by rw [ht, List.append_assoc]⟩

/-- The Bloomberg annotation never touches the error list. -/
theorem handle_bloomberg_fetch_errors (c : String) (md : Metadata) :
    (handle_bloomberg_content c md).2.fetch_errors = md.fetch_errors := by
  unfold handle_bloomberg_content
  split_ifs <;> rfl

/-- The extraction stage only ever appends to the accumulator. -/
theorem extractStage_accum (url : String) (isLast : Bool) (soup : Soup)
    (errs : List String) (md : Metadata) :
    ∃ t, stepAccum (extractStage url isLast soup errs md) = errs ++ t := by
  dsimp only [extractStage]
  split_ifs <;> simp only [stepAccum] <;>
    first
      | exact ⟨_, rfl⟩
      | exact ⟨[], (List.append_nil errs).symm⟩

set_option maxHeartbeats 2000000 in
/-- One loop iteration only ever appends to the accumulator. -/
theorem runAttempt_accum (url : String) (tmo : Nat) (isLast : Bool) (ev : HttpEvent)
    (errs : List String) (md : Metadata) :
    ∃ t, stepAccum (runAttempt url tmo isLast ev errs md) = errs ++ t := by
  cases ev with
  | timeoutErr => exact ⟨_, rfl⟩
  | sslErr m => exact ⟨_, rfl⟩
  | connErr m => exact ⟨_, rfl⟩
  | otherExc n m => exact ⟨_, rfl⟩
  | resp status clen soup =>
    dsimp only [runAttempt, hardStatus]
    rcases detectPaywall soup.rawLower with _ | ind <;>
      split_ifs <;> simp only [stepAccum] <;>
        first
          | exact ⟨_, rfl⟩
          | exact ⟨[], (List.append_nil errs).symm⟩
          | exact ⟨_, List.append_assoc _ _ _⟩
          | exact extractStage_accum url isLast soup errs _
          | exact accPre errs _ _ (extractStage_accum url isLast soup _ _)

/-- The whole retry loop only ever appends to the accumulator. -/
theorem httpLoop_accum (env : Env) (url : String) (tmo : Nat) :
    ∀ (remaining attempt : Nat) (errs : List String) (md : Metadata),
      ∃ t, loopAccum (httpLoop env url tmo remaining attempt errs md) = errs ++ t := by
  intro remaining
  induction remaining with
  | zero =>
    intro attempt errs md
    exact ⟨[], (List.append_nil errs).symm⟩
  | succ r ih =>
    intro attempt errs md
    have hstep := runAttempt_accum url tmo (r == 0) (env.http url attempt) errs md
    have hunf : httpLoop env url tmo (r + 1) attempt errs md =
        (match runAttempt url tmo (r == 0) (env.http url attempt) errs md with
         | .ret ok payload m a => .ret ok payload m a
         | .brk pwb reason a m => .fell pwb reason a m
         | .next a m => httpLoop env url tmo r (attempt + 1) a m) := rfl
    rcases hr : runAttempt url tmo (r == 0) (env.http url attempt) errs md with
      ⟨ok, payload, m, a⟩ | ⟨pwb, reason, a, m⟩ | ⟨a, m⟩ <;>
      rw [hr] at hstep hunf <;> rw [hunf] <;> simp only [stepAccum] at hstep
    · simpa only [loopAccum] using hstep
    · simpa only [loopAccum] using hstep
    · obtain ⟨t1, h1⟩ := hstep
      obtain ⟨t2, h2⟩ := ih (attempt + 1) a m
      refine ⟨t1 ++ t2, ?_⟩
      show loopAccum (httpLoop env url tmo r (attempt + 1) a m) = errs ++ (t1 ++ t2)
      rw [h2, h1, List.append_assoc]

/-- The fallback stage only ever appends to the error list it publishes. -/
theorem afterLoop_accum (env : Env) (url : String) (usePw shouldPw : Bool)
    (errs : List String) (md : Metadata) :
    ∃ t, (afterLoop env url usePw shouldPw errs md).2.2.fetch_errors = errs ++ t := by
  dsimp only [afterLoop]
  split_ifs <;>
    first
      | exact ⟨_, rfl⟩
      | exact ⟨[], (List.append_nil errs).symm⟩
      | (rw [handle_bloomberg_fetch_errors]; exact ⟨_, rfl⟩)

/-- C5: the error accumulator of a fetch never shrinks.  Every single
attempt extends the incoming accumulator (so after attempt k+1 the list is
at least as long as after attempt k), the whole retry loop extends
whatever it starts from, and the fallback stage publishes an extension of
the accumulator it receives in the returned metadata — entries are never
cleared once a tier has begun. -/
theorem C5_accumulator_monotone (env : Env) (url : String) (tmo : Nat) (usePw : Bool) :
    (∀ (isLast : Bool) (ev : HttpEvent) (errs : List String) (md : Metadata),
      ∃ t, stepAccum (runAttempt url tmo isLast ev errs md) = errs ++ t) ∧
    (∀ (remaining attempt : Nat) (errs : List String) (md : Metadata),
      ∃ t, loopAccum (httpLoop env url tmo remaining attempt errs md) = errs ++ t) ∧
    (∀ (shouldPw : Bool) (errs : List String) (md : Metadata),
      ∃ t, (afterLoop env url usePw shouldPw errs md).2.2.fetch_errors = errs ++ t) :=
  ⟨fun isLast ev errs md => runAttempt_accum url tmo isLast ev errs md,
   fun remaining attempt errs md => httpLoop_accum env url tmo remaining attempt errs md,
   fun shouldPw errs md => afterLoop_accum env url usePw shouldPw errs md⟩
